import Mathlib

/-!
Verification development for the Notion course-creation API.

JavaScript strings are embedded as lists of Unicode code points
(`List Char`); string lengths, `slice`, `substring` and `trim` are
modelled at the code-point level.  Fallible JavaScript code (property
access on `null`/`undefined`, method calls on non-objects) is embedded
in the `Except` monad.  All definitions are executable.
-/

namespace NotionCourse

/-- Strings of the JavaScript runtime, as lists of code points. -/
abbrev Str := List Char

/-- Whitespace recognised by the JavaScript `trim` family (ASCII subset). -/
def isWsChar (c : Char) : Bool :=
  c = ' ' || c = '\t' || c = '\n' || c = '\r' || c = '\x0b' || c = '\x0c'

/-- Drop leading whitespace, as the left half of `String.prototype.trim`. -/
def jsTrimLeft (s : Str) : Str := s.dropWhile isWsChar

/-- Drop trailing whitespace, as the right half of `String.prototype.trim`. -/
def jsTrimRight (s : Str) : Str := (s.reverse.dropWhile isWsChar).reverse

/-- The JavaScript `trim` on both ends. -/
def jsTrim (s : Str) : Str := jsTrimRight (jsTrimLeft s)

/-- Style flags of a Notion rich-text run (the styled-flags object carried by each run in the source). -/
structure Annots where
  bold : Bool
  italic : Bool
  strikethrough : Bool
  underline : Bool
  code : Bool
  color : Str
deriving DecidableEq, Repr

/-- One rich-text run (interface `RichText` of `block-builders`). -/
structure RichText where
  content : Str
  link : Option Str
  annots : Annots
deriving DecidableEq, Repr

/-- The optional-fields argument accepted by the `richText` builder. -/
structure RichTextOptions where
  bold : Option Bool
  italic : Option Bool
  strikethrough : Option Bool
  underline : Option Bool
  code : Option Bool
  color : Option Str
  link : Option Str
deriving DecidableEq, Repr

/-- No options supplied (`options` argument omitted). -/
def noOpts : RichTextOptions := ⟨none, none, none, none, none, none, none⟩

/-- Options `{ bold: true }`. -/
def boldOpt : RichTextOptions := ⟨some true, none, none, none, none, none, none⟩

/-- Options `{ italic: true }`. -/
def italicOpt : RichTextOptions := ⟨none, some true, none, none, none, none, none⟩

/-- Options `{ code: true }`. -/
def codeOpt : RichTextOptions := ⟨none, none, none, none, some true, none, none⟩

/-- Options `{ strikethrough: true }`. -/
def strikeOpt : RichTextOptions := ⟨none, none, some true, none, none, none, none⟩

/-- JavaScript truthiness of an optional string: present and non-empty. -/
def strTruthy (o : Option Str) : Bool :=
  match o with
  | some s => !s.isEmpty
  | none => false

/-- Value of `x || d` for an optional string `x` with default `d`. -/
def orElseStr (o : Option Str) (d : Str) : Str :=
  match o with
  | some s => if s.isEmpty then d else s
  | none => d

/-- The single-run constructor `richText` of `block-builders`: trims the
content, truncates beyond 2000 code points to 1997 plus an ellipsis
marker, and replaces an empty result by a single-space run. -/
def richText (content : Str) (options : RichTextOptions) : RichText :=
  let cleanContent := jsTrim content
  let truncatedContent :=
    if 2000 < cleanContent.length then cleanContent.take 1997 ++ "...".data
    else cleanContent
  if truncatedContent.isEmpty then
    ⟨" ".data, none, ⟨false, false, false, false, false, "default".data⟩⟩
  else
    ⟨truncatedContent,
     match options.link with
     | some l => if l.isEmpty then none else some l
     | none => none,
     ⟨options.bold.getD false, options.italic.getD false,
      options.strikethrough.getD false, options.underline.getD false,
      options.code.getD false, orElseStr options.color "default".data⟩⟩

/-- One candidate markdown token of `parseFormattedText`: absolute start
and end offsets, the captured text, and the run options it carries
(the token's style spread together with its optional link). -/
structure Token where
  start : Nat
  stop : Nat
  text : Str
  opts : RichTextOptions
deriving DecidableEq, Repr

/-- Lazy search for a closing delimiter, as the backtracking regex engine
evaluates `(.+?)` followed by the closing delimiter `close`: grow the
capture one non-newline code point at a time and stop at the first
position where `close` matches.  Returns the capture and the remaining
text after the closing delimiter. -/
def lazyCapture (close : Str) : Str → Str → Option (Str × Str)
  | [], _ => none
  | c :: rest, acc =>
    if c = '\n' then none
    else
      let acc' := acc ++ [c]
      if close.isPrefixOf rest then some (acc', rest.drop close.length)
      else lazyCapture close rest acc'

/-- Lazy search for the tail of the link pattern, as the engine evaluates
`(.+?)\]\((.+?)\)` after the opening bracket: grow the first capture
lazily; whenever the text continues with the two literal characters of
the bracket-parenthesis junction, try the lazily matched URL capture up
to a closing parenthesis, and on its failure keep growing the first
capture. -/
def lazyLinkCapture : Str → Str → Option (Str × Str × Str)
  | [], _ => none
  | c :: rest, acc =>
    if c = '\n' then none
    else
      let acc' := acc ++ [c]
      if [']', '('].isPrefixOf rest then
        match lazyCapture [')'] (rest.drop 2) [] with
        | some (url, rest') => some (acc', url, rest')
        | none => lazyLinkCapture rest acc'
      else lazyLinkCapture rest acc'

/-- Global scan of one symmetric delimiter pattern over the text, as a
JavaScript global regex `exec` loop: at each position try the opening
delimiter and the lazy closing search; on a match emit a token and
resume after it, otherwise advance one position.  The fuel argument is
an upper bound on the number of scan steps (the text length suffices). -/
def scanTokens (opn close : Str) (opts : RichTextOptions) :
    Nat → Nat → Str → List Token
  | 0, _, _ => []
  | fuel + 1, pos, s =>
    match s with
    | [] => []
    | c :: rest =>
      if opn.isPrefixOf (c :: rest) then
        match lazyCapture close ((c :: rest).drop opn.length) [] with
        | some (cap, rest') =>
          let len := opn.length + cap.length + close.length
          ⟨pos, pos + len, cap, opts⟩ :: scanTokens opn close opts fuel (pos + len) rest'
        | none => scanTokens opn close opts fuel (pos + 1) rest
      else scanTokens opn close opts fuel (pos + 1) rest

/-- Global scan of the link pattern, analogous to `scanTokens`; a link
token carries an empty style and the captured URL. -/
def scanLinkTokens : Nat → Nat → Str → List Token
  | 0, _, _ => []
  | fuel + 1, pos, s =>
    match s with
    | [] => []
    | c :: rest =>
      if c = '[' then
        match lazyLinkCapture rest [] with
        | some (txt, url, rest') =>
          let len := 1 + txt.length + 2 + url.length + 1
          ⟨pos, pos + len, txt, { noOpts with link := some url }⟩ ::
            scanLinkTokens fuel (pos + len) rest'
        | none => scanLinkTokens fuel (pos + 1) rest
      else scanLinkTokens fuel (pos + 1) rest

/-- Insert a token after every already-placed token whose start offset is
not larger, keeping insertion order among equal keys. -/
def insertToken (t : Token) : List Token → List Token
  | [] => [t]
  | u :: us => if u.start ≤ t.start then u :: insertToken t us else t :: u :: us

/-- Stable sort of the token list by start offset, as the JavaScript
`Array.prototype.sort` with comparator on `start` (stable per ES2019). -/
def sortTokens (ts : List Token) : List Token :=
  ts.foldl (fun acc t => insertToken t acc) []

/-- Segment construction loop of `parseFormattedText`: walk the sorted
tokens keeping the end of the last claimed region; drop tokens that
start inside it; emit a plain run for each non-blank gap and a styled
run for each kept token; finally emit the non-blank trailing text. -/
def buildSegments (text : Str) : List Token → Nat → List RichText → List RichText
  | [], lastEnd, segments =>
    if lastEnd < text.length then
      let remaining := text.drop lastEnd
      if !(jsTrim remaining).isEmpty then segments ++ [richText remaining noOpts]
      else segments
    else segments
  | t :: ts, lastEnd, segments =>
    if t.start < lastEnd then buildSegments text ts lastEnd segments
    else
      let segments1 :=
        if lastEnd < t.start then
          let plainText := (text.drop lastEnd).take (t.start - lastEnd)
          if !(jsTrim plainText).isEmpty then segments ++ [richText plainText noOpts]
          else segments
        else segments
      buildSegments text ts t.stop (segments1 ++ [richText t.text t.opts])

/-- The inline-text formatter `parseFormattedText` of `block-builders`:
scan the five markdown patterns independently over the whole text,
sort the candidate tokens by start offset, and rebuild the text as
styled runs with overlapping tokens dropped. -/
def parseFormattedText (text : Str) : List RichText :=
  let tokens :=
    scanTokens ['*', '*'] ['*', '*'] boldOpt text.length 0 text ++
    scanTokens ['*'] ['*'] italicOpt text.length 0 text ++
    scanTokens ['`'] ['`'] codeOpt text.length 0 text ++
    scanTokens ['~', '~'] ['~', '~'] strikeOpt text.length 0 text ++
    scanLinkTokens text.length 0 text
  let sorted := sortTokens tokens
  if sorted.isEmpty then [richText text noOpts]
  else
    let segments := buildSegments text sorted 0 []
    if !segments.isEmpty then segments else [richText text noOpts]

/-- A pre-structured styled segment (interface `FormattedTextSegment`). -/
structure FormattedTextSegment where
  text : Str
  bold : Option Bool
  italic : Option Bool
  strikethrough : Option Bool
  underline : Option Bool
  code : Option Bool
  color : Option Str
  link : Option Str
deriving DecidableEq, Repr

/-- Conversion of pre-structured segments to runs (`formattedSegmentsToRichText`):
blank segments are filtered out and the rest go through `richText`. -/
def formattedSegmentsToRichText (segments : List FormattedTextSegment) : List RichText :=
  (segments.filter (fun s => !s.text.isEmpty && !(jsTrim s.text).isEmpty)).map
    (fun s => richText s.text
      ⟨s.bold, s.italic, s.strikethrough, s.underline, s.code, s.color, s.link⟩)

/-- The heterogeneous `TextContent` parameter of the text-bearing builders:
a raw string, a pre-built run list, or a structured segment list. -/
inductive TextContent where
  | str (s : Str)
  | rich (runs : List RichText)
  | segs (segments : List FormattedTextSegment)

/-- The `toRichTextArray` helper: resolve a `TextContent` to a run list or
to null.  A raw string is trimmed and parsed (markdown on by default); a
run list is filtered for blank runs; a segment list is converted; empty
inputs give null. -/
def toRichTextArray (content : TextContent) (parseMarkdown : Bool) : Option (List RichText) :=
  match content with
  | .str s =>
    let trimmed := jsTrim s
    if trimmed.isEmpty then none
    else if parseMarkdown then some (parseFormattedText trimmed)
    else some [richText trimmed noOpts]
  | .rich runs =>
    if runs.isEmpty then none
    else some (runs.filter (fun rt => !(jsTrim rt.content).isEmpty))
  | .segs segments =>
    if segments.isEmpty then none
    else some (formattedSegmentsToRichText segments)

/-- The output block tree: one constructor per block kind produced by the
builders, with the payload fields of the corresponding Notion object. -/
inductive Block where
  | paragraphB (rich_text : List RichText) (color : Str) (children : Option (List Block))
  | heading1B (rich_text : List RichText) (color : Str) (is_toggleable : Bool) (children : Option (List Block))
  | heading2B (rich_text : List RichText) (color : Str) (is_toggleable : Bool) (children : Option (List Block))
  | heading3B (rich_text : List RichText) (color : Str) (is_toggleable : Bool) (children : Option (List Block))
  | calloutB (rich_text : List RichText) (icon : Str) (color : Str) (children : Option (List Block))
  | quoteB (rich_text : List RichText) (color : Str) (children : Option (List Block))
  | codeB (rich_text : List RichText) (language : Str) (caption : List RichText)
  | equationB (expression : Str)
  | bulletedListItemB (rich_text : List RichText) (color : Str) (children : Option (List Block))
  | numberedListItemB (rich_text : List RichText) (color : Str) (children : Option (List Block))
  | todoB (rich_text : List RichText) (checked : Bool) (color : Str) (children : Option (List Block))
  | toggleB (rich_text : List RichText) (color : Str) (children : List Block)
  | imageB (url : Str) (caption : List RichText)
  | videoB (url : Str) (caption : List RichText)
  | audioB (url : Str) (caption : List RichText)
  | pdfB (url : Str) (caption : List RichText)
  | fileB (url : Str) (name : Str) (caption : List RichText)
  | embedB (url : Str)
  | bookmarkB (url : Str) (caption : List RichText)
  | dividerB
  | tableOfContentsB (color : Str)
  | breadcrumbB
  | columnB (children : List Block)
  | columnListB (children : List Block)
  | tableRowB (cells : List (List RichText))
  | tableB (table_width : Nat) (has_column_header : Bool) (has_row_header : Bool) (children : List Block)

/-- The optional-fields argument shared by the text-bearing builders. -/
structure BOpts where
  color : Option Str
  icon : Option Str
  children : Option (List Block)
  parseMarkdown : Option Bool
  toggleable : Option Bool

/-- No builder options supplied. -/
def bnone : BOpts := ⟨none, none, none, none, none⟩

/-- Value of `options?.color || 'default'`. -/
def colorOf (o : Option Str) : Str := orElseStr o "default".data

/-- The `paragraph` builder: null when the content resolves to no runs. -/
def paragraph (content : TextContent) (options : BOpts) : Option Block :=
  match toRichTextArray content (options.parseMarkdown != some false) with
  | none => none
  | some rts =>
    if rts.isEmpty then none
    else some (.paragraphB rts (colorOf options.color) options.children)

/-- Shared run resolution of the fallback builders: a null result becomes
the single run of the empty string (which `richText` turns into a space). -/
def rtsOrPlaceholder (content : TextContent) (options : BOpts) : List RichText :=
  (toRichTextArray content (options.parseMarkdown != some false)).getD [richText [] noOpts]

/-- The `heading1` builder; children are attached only when toggleable. -/
def heading1 (content : TextContent) (options : BOpts) : Block :=
  .heading1B (rtsOrPlaceholder content options) (colorOf options.color)
    (options.toggleable.getD false)
    (if options.toggleable.getD false then options.children else none)

/-- The `heading2` builder. -/
def heading2 (content : TextContent) (options : BOpts) : Block :=
  .heading2B (rtsOrPlaceholder content options) (colorOf options.color)
    (options.toggleable.getD false)
    (if options.toggleable.getD false then options.children else none)

/-- The `heading3` builder. -/
def heading3 (content : TextContent) (options : BOpts) : Block :=
  .heading3B (rtsOrPlaceholder content options) (colorOf options.color)
    (options.toggleable.getD false)
    (if options.toggleable.getD false then options.children else none)

/-- The `callout` builder; the default icon is the light bulb. -/
def callout (content : TextContent) (options : BOpts) : Block :=
  .calloutB (rtsOrPlaceholder content options) (orElseStr options.icon "💡".data)
    (colorOf options.color) options.children

/-- The `quote` builder. -/
def quote (content : TextContent) (options : BOpts) : Block :=
  .quoteB (rtsOrPlaceholder content options) (colorOf options.color) options.children

/-- Value of `caption ? [richText(caption)] : []`. -/
def captionRuns (caption : Option Str) : List RichText :=
  match caption with
  | some cp => if cp.isEmpty then [] else [richText cp noOpts]
  | none => []

/-- The `code` builder: trims, truncates above 50000 code points with a
visible truncation marker, and wraps the text in a single run. -/
def code (content : Str) (language : Str) (caption : Option Str) : Block :=
  let c0 := jsTrim content
  let codeContent :=
    if 50000 < c0.length then c0.take (50000 - 100) ++ "\n\n// ... Code tronqué".data
    else c0
  .codeB [richText codeContent noOpts] language (captionRuns caption)

/-- The `equation` builder. -/
def equation (expression : Str) : Block := .equationB expression

/-- The `bulletedListItem` builder. -/
def bulletedListItem (content : TextContent) (options : BOpts) : Block :=
  .bulletedListItemB (rtsOrPlaceholder content options) (colorOf options.color)
    options.children

/-- The `numberedListItem` builder. -/
def numberedListItem (content : TextContent) (options : BOpts) : Block :=
  .numberedListItemB (rtsOrPlaceholder content options) (colorOf options.color)
    options.children

/-- The `todo` builder. -/
def todo (content : TextContent) (checked : Bool) (options : BOpts) : Block :=
  .todoB (rtsOrPlaceholder content options) checked (colorOf options.color)
    options.children

/-- The `toggle` builder; its children list is always attached. -/
def toggle (content : TextContent) (children : List Block) (options : BOpts) : Block :=
  .toggleB (rtsOrPlaceholder content options) (colorOf options.color) children

/-- Characters allowed after the first letter of a URL scheme. -/
def schemeChar (c : Char) : Bool := c.isAlphanum || c = '+' || c = '-' || c = '.'

/-- Modelled from the spec: the WHATWG URL constructor called by
`isValidUrl` is platform code, not part of this repository.  Following
the contract of section 4.2, a string yields a protocol when, after
trimming, it starts with an ASCII letter followed by scheme characters
and a colon; the protocol is the lowercased scheme with the colon. -/
def parseProtocol (url : Str) : Option Str :=
  match jsTrim url with
  | [] => none
  | c :: rest =>
    if c.isAlpha then
      match rest.dropWhile schemeChar with
      | ':' :: _ => some ((c :: rest.takeWhile schemeChar).map Char.toLower ++ [':'])
      | _ => none
    else none

/-- The `isValidUrl` helper: the URL parses and its protocol is `http:`
or `https:`. -/
def isValidUrl (url : Str) : Bool :=
  match parseProtocol url with
  | some p => p = "http:".data || p = "https:".data
  | none => false

/-- The `image` builder: an invalid URL degrades to an error paragraph. -/
def image (url : Str) (caption : Option Str) : Option Block :=
  if !isValidUrl url then
    paragraph (.str ("[Image invalide: ".data ++ url ++ "]".data)) bnone
  else some (.imageB url (captionRuns caption))

/-- The `video` builder with the same URL degradation. -/
def video (url : Str) (caption : Option Str) : Option Block :=
  if !isValidUrl url then
    paragraph (.str ("[Vidéo invalide: ".data ++ url ++ "]".data)) bnone
  else some (.videoB url (captionRuns caption))

/-- The `audio` builder with the same URL degradation. -/
def audio (url : Str) (caption : Option Str) : Option Block :=
  if !isValidUrl url then
    paragraph (.str ("[Audio invalide: ".data ++ url ++ "]".data)) bnone
  else some (.audioB url (captionRuns caption))

/-- The `pdf` builder with the same URL degradation. -/
def pdf (url : Str) (caption : Option Str) : Option Block :=
  if !isValidUrl url then
    paragraph (.str ("[PDF invalide: ".data ++ url ++ "]".data)) bnone
  else some (.pdfB url (captionRuns caption))

/-- The `file` builder with the same URL degradation. -/
def file (url : Str) (name : Option Str) (caption : Option Str) : Option Block :=
  if !isValidUrl url then
    paragraph (.str ("[Fichier invalide: ".data ++ url ++ "]".data)) bnone
  else some (.fileB url (orElseStr name "file".data) (captionRuns caption))

/-- The `embed` builder with the same URL degradation. -/
def embed (url : Str) : Option Block :=
  if !isValidUrl url then
    paragraph (.str ("[Embed invalide: ".data ++ url ++ "]".data)) bnone
  else some (.embedB url)

/-- The `bookmark` builder with the same URL degradation. -/
def bookmark (url : Str) (caption : Option Str) : Option Block :=
  if !isValidUrl url then
    paragraph (.str ("[Bookmark invalide: ".data ++ url ++ "]".data)) bnone
  else some (.bookmarkB url (captionRuns caption))

/-- The `divider` builder. -/
def divider : Block := .dividerB

/-- The `tableOfContents` builder. -/
def tableOfContents (color : Option Str) : Block :=
  .tableOfContentsB (colorOf color)

/-- The `breadcrumb` builder. -/
def breadcrumb : Block := .breadcrumbB

/-- The `columnList` builder restricted to the plain array-of-arrays input
shape, the only shape this repository passes to it; the width-ratio
normalization of the source is the identity on that shape. -/
def columnList (columns : List (List Block)) : Block :=
  .columnListB (columns.map (fun bs => .columnB bs))

/-- One table cell: a plain string or a pre-built run list. -/
inductive TableCell where
  | strC (s : Str)
  | richC (runs : List RichText)

/-- The `table` builder: row 0 determines the declared width; string cells
go through `richText`. -/
def table (rows : List (List TableCell)) (hasColumnHeader : Option Bool)
    (hasRowHeader : Option Bool) : Block :=
  .tableB (rows.headD []).length (hasColumnHeader.getD true) (hasRowHeader.getD false)
    (rows.map (fun row => Block.tableRowB (row.map (fun cell =>
      match cell with
      | .strC s => [richText s noOpts]
      | .richC runs => runs))))

/-- The fixed icon set stripped from user text by `cleanLeadingEmoji`. -/
def TEMPLATE_EMOJIS : List Str :=
  ["ℹ️".data, "⚠️".data, "💡".data, "🚨".data, "📖".data, "✏️".data,
   "🧠".data, "📝".data, "🎯".data, "📋".data, "⏱️".data]

/-- The `cleanLeadingEmoji` helper: trim, then for each known icon in turn
drop it from the front (re-trimming) when present. -/
def cleanLeadingEmoji (text : Str) : Str :=
  TEMPLATE_EMOJIS.foldl
    (fun cleaned emoji =>
      if emoji.isPrefixOf cleaned then jsTrim (cleaned.drop emoji.length) else cleaned)
    (jsTrim text)

/-- Decimal rendering of a JavaScript integer. -/
def intToStr (n : Int) : Str := (toString n).data

/-- Null filter of the source (`filterValidBlocks`): null blocks are
represented by `Option` and dropped before block lists are formed in
this embedding, so the filter is the identity on block lists. -/
def filterValidBlocks (blocks : List Block) : List Block := blocks

/-- The four kinds accepted by `noteImportante`. -/
inductive NoteKind where
  | info | warning | tip | danger

/-- The `noteImportante` template: fixed icon and background per kind,
with a duplicate leading icon stripped from the content. -/
def noteImportante (content : Str) (kind : NoteKind) : Block :=
  let cfg : Str × Str :=
    match kind with
    | .info => ("ℹ️".data, "blue_background".data)
    | .warning => ("⚠️".data, "yellow_background".data)
    | .tip => ("💡".data, "green_background".data)
    | .danger => ("🚨".data, "red_background".data)
  callout (.str (cleanLeadingEmoji content))
    { bnone with icon := some cfg.1, color := some cfg.2 }

/-- The `definition` template: bold term, separator, definition text with
a duplicate leading icon stripped, in a book-icon callout. -/
def definition (term : Str) (defn : Str) (colorOpt : Option Str) : Block :=
  callout (.rich [richText term boldOpt, richText ": ".data noOpts,
                  richText (cleanLeadingEmoji defn) noOpts])
    { bnone with icon := some "📖".data,
                 color := some (orElseStr colorOpt "purple_background".data) }

/-- Case folding used by the case-insensitive title phrases; the source
regexes contain ASCII letters and the letter É. -/
def lowerChar (c : Char) : Char := if c = 'É' then 'é' else c.toLower

/-- Case-insensitive literal prefix match: the remainder on success. -/
def stripPrefixCI (pat s : Str) : Option Str :=
  if (s.take pat.length).map lowerChar = pat.map lowerChar then
    some (s.drop pat.length)
  else none

/-- One application of the replace of a leading step phrase (the pattern
is the word, one or more spaces, one or more digits, optional spaces, a
colon, optional spaces, all case-insensitive); the input is returned
unchanged when the pattern does not match. -/
def stripStepPhrase (title : Str) : Str :=
  match stripPrefixCI "Étape".data title with
  | none => title
  | some r1 =>
    match r1 with
    | [] => title
    | c1 :: _ =>
      if !isWsChar c1 then title
      else
        match r1.dropWhile isWsChar with
        | [] => title
        | c2 :: _ =>
          if !c2.isDigit then title
          else
            match (r1.dropWhile isWsChar).dropWhile Char.isDigit |>.dropWhile isWsChar with
            | ':' :: r4 => r4.dropWhile isWsChar
            | _ => title

/-- The emoji digits used by the `step` template. -/
def emojiNumbers : List Str :=
  ["1️⃣".data, "2️⃣".data, "3️⃣".data, "4️⃣".data, "5️⃣".data,
   "6️⃣".data, "7️⃣".data, "8️⃣".data, "9️⃣".data, "🔟".data]

/-- The `step` template: emoji digit icon for 1 to 10 (a missing table
entry falls back to the callout default), generic icon above 10, a
duplicated leading step phrase stripped from the title, the description
as a paragraph child and the extra children filtered for null. -/
def step (number : Int) (title : Str) (description : Option Str)
    (children : Option (List Block)) : Block :=
  let emoji : Option Str :=
    if number ≤ 10 then
      if 1 ≤ number then emojiNumbers.get? (number.toNat - 1) else none
    else some "⏺️".data
  let cleanTitle := jsTrim (stripStepPhrase title)
  let blockChildren :=
    (match description with
     | some d =>
       if d.isEmpty then []
       else
         match paragraph (.str d) bnone with
         | some b => [b]
         | none => []
     | none => []) ++
    (match children with
     | some cs => filterValidBlocks cs
     | none => [])
  callout (.rich [richText ("Étape ".data ++ intToStr number ++ ": ".data) boldOpt,
                  richText cleanTitle noOpts])
    { bnone with icon := emoji, color := some "gray_background".data,
                 children := if blockChildren.isEmpty then none else some blockChildren }

/-- One application of the replace of a leading word-colon phrase (the
word, optional spaces, a colon, optional spaces, case-insensitive),
shared by the exercise and quiz templates. -/
def stripWordColonPhrase (word s : Str) : Str :=
  match stripPrefixCI word s with
  | none => s
  | some r1 =>
    match r1.dropWhile isWsChar with
    | ':' :: r3 => r3.dropWhile isWsChar
    | _ => s

/-- The `exercice` template: leading icon and leading exercise phrase
stripped from the title, each instruction a bulleted item, and a
non-empty solution wrapped in a collapsed toggle holding a code block. -/
def exercice (title : Str) (instructions : List Str) (solution : Option Str) : Block :=
  let cleanTitle := jsTrim (stripWordColonPhrase "Exercice".data (cleanLeadingEmoji title))
  let cleanInstructions := (instructions.map jsTrim).filter (fun i => 0 < i.length)
  let children :=
    cleanInstructions.map (fun i => bulletedListItem (.str i) bnone) ++
    (match solution with
     | some s =>
       if s.isEmpty then []
       else
         [toggle (.str "💡 Voir la solution".data)
           [code (jsTrim s) "plain text".data none]
           { bnone with color := some "green_background".data }]
     | none => [])
  callout (.rich [richText "Exercice: ".data boldOpt, richText cleanTitle noOpts])
    { bnone with icon := some "✏️".data, color := some "orange_background".data,
                 children := some children }

/-- The `chapterSummary` template. -/
def chapterSummary (points : List Str) : Block :=
  let cleanPoints := (points.map jsTrim).filter (fun p => 0 < p.length)
  callout (.str "Points clés à retenir".data)
    { bnone with icon := some "📝".data, color := some "blue_background".data,
                 children := some (cleanPoints.map (fun p =>
                   bulletedListItem (.str p) { bnone with color := some "blue".data })) }

/-- The `learningObjectives` template. -/
def learningObjectives (objectives : List Str) : Block :=
  let cleanObjectives := (objectives.map jsTrim).filter (fun o => 0 < o.length)
  callout (.str "À la fin de cette section, vous serez capable de :".data)
    { bnone with icon := some "🎯".data, color := some "green_background".data,
                 children := some (cleanObjectives.map (fun o => todo (.str o) false bnone)) }

/-- The `prerequisites` template. -/
def prerequisites (items : List Str) : Block :=
  let cleanItems := (items.map jsTrim).filter (fun i => 0 < i.length)
  callout (.str "Prérequis".data)
    { bnone with icon := some "📋".data, color := some "gray_background".data,
                 children := some (cleanItems.map (fun i => bulletedListItem (.str i) bnone)) }

/-- The `estimatedTime` template. -/
def estimatedTime (minutes : Int) : Block :=
  callout (.str ("Temps estimé : ".data ++ intToStr minutes ++ " minutes".data))
    { bnone with icon := some "⏱️".data, color := some "purple_background".data }

/-- The `comparison` template: a two-column layout of titled contents. -/
def comparison (leftTitle : Str) (leftContent : List Block)
    (rightTitle : Str) (rightContent : List Block) : Block :=
  columnList
    [heading3 (.str leftTitle) { bnone with color := some "green".data } :: leftContent,
     heading3 (.str rightTitle) { bnone with color := some "red".data } :: rightContent]

/-- The `codeWithExplanation` template: a code block followed by a callout
holding one bulleted item per explained line. -/
def codeWithExplanation (codeContent : Str) (language : Str)
    (explanations : List (Str × Str)) : List Block :=
  [code codeContent language none,
   callout (.str "Explication ligne par ligne :".data)
     { bnone with icon := some "📖".data, color := some "gray_background".data,
                  children := some (explanations.map (fun e =>
                    bulletedListItem
                      (.rich [richText e.1 codeOpt, richText " → ".data noOpts,
                              richText e.2 noOpts]) bnone)) }]

/-- The option letter by position (A, B, C, ...). -/
def letterStr (i : Nat) : Str := [Char.ofNat (65 + i)]

/-- The `quickQuiz` template: fewer than two options degrade to an error
paragraph; an out-of-range correct index is clamped to 0; options are
lettered by position and the answer hidden in a toggle revealing a
green callout naming the correct lettered option. -/
def quickQuiz (question : Str) (options : List Str) (correctIndex : Int) : Option Block :=
  if options.length < 2 then
    paragraph (.str "Quiz invalide : options manquantes".data) bnone
  else
    let ci : Nat :=
      if correctIndex < 0 || (options.length : Int) ≤ correctIndex then 0
      else correctIndex.toNat
    let cleanQuestion := jsTrim (stripWordColonPhrase "Quiz".data (cleanLeadingEmoji question))
    let cleanOptions := options.map jsTrim
    some (callout (.rich [richText "Quiz: ".data boldOpt, richText cleanQuestion noOpts])
      { bnone with icon := some "🧠".data, color := some "purple_background".data,
                   children := some (
                     cleanOptions.enum.map (fun p =>
                       bulletedListItem (.str (letterStr p.1 ++ ") ".data ++ p.2)) bnone) ++
                     [toggle (.str "Voir la réponse".data)
                       [callout (.str ("La bonne réponse est ".data ++ letterStr ci ++ ") ".data ++
                                       cleanOptions.getD ci []))
                         { bnone with icon := some "✅".data, color := some "green_background".data }]
                       bnone]) })

/-- One side of a comparison item (`left` and `right` payloads). -/
structure SidePayload where
  title : Str
  items : List Str

/-- One entry of a code-explanation list. -/
structure ExplanationItem where
  line : Str
  explanation : Str

/-- The loosely-typed course content item (interface `CourseContent` of
the server): a type tag with the optional type-specific fields. -/
structure ContentItem where
  type : Str
  text : Option Str
  items : Option (List Str)
  codeText : Option Str
  language : Option Str
  caption : Option Str
  url : Option Str
  icon : Option Str
  color : Option Str
  checked : Option Bool
  question : Option Str
  options : Option (List Str)
  correctIndex : Option Int
  term : Option Str
  defn : Option Str
  stepNumber : Option Int
  instructions : Option (List Str)
  solution : Option Str
  minutes : Option Int
  objectives : Option (List Str)
  left : Option SidePayload
  right : Option SidePayload
  explanations : Option (List ExplanationItem)
  rows : Option (List (List Str))
  toggleable : Option Bool
  children : Option (List ContentItem)

/-- A content item with every field absent; concrete items are built by
updating it. -/
def emptyItem : ContentItem :=
  ⟨[], none, none, none, none, none, none, none, none, none, none, none,
   none, none, none, none, none, none, none, none, none, none, none, none,
   none, none⟩

/-- Value of a `x || y || ''` chain on optional strings. -/
def orElseStr2 (a b : Option Str) : Str := orElseStr a (orElseStr b [])

/-- Value of `x || d` for an optional number (JavaScript zero is falsy). -/
def orElseInt (o : Option Int) (d : Int) : Int :=
  match o with
  | some n => if n = 0 then d else n
  | none => d

/-- Value of a `x || y || []` chain on optional lists (arrays are truthy). -/
def orElseList (a b : Option (List Str)) : List Str :=
  match a with
  | some l => l
  | none =>
    match b with
    | some l => l
    | none => []

/-- Return value of `buildCourseBlock`: null, one block, or a block array. -/
inductive BuildResult where
  | nullR
  | oneR (b : Block)
  | manyR (bs : List Block)

/-- Lift an optional block to a build result. -/
def ofOptBlock (o : Option Block) : BuildResult :=
  match o with
  | none => .nullR
  | some b => .oneR b

/-- Value of `result ? (Array.isArray(result) ? result : [result]) : []`,
as used when a recursive build result is spliced into a children list. -/
def resultBlocks (r : BuildResult) : List Block :=
  match r with
  | .nullR => []
  | .oneR b => [b]
  | .manyR bs => bs

/-- The compiler's dispatch `buildCourseBlock` of the server: map a typed
content item to the corresponding builder invocation, reading item
fields permissively; an unknown type degrades to a placeholder
paragraph naming the type.  The toggle arm recurses into the item's
children; the fuel argument bounds that recursion depth and one unit is
consumed per nesting level (any bound at least the nesting depth gives
the source behaviour). -/
def buildCourseBlock : Nat → ContentItem → BuildResult
  | 0, _ => .nullR
  | fuel + 1, item =>
    let text := orElseStr item.text []
    if item.type = "paragraph".data then
      ofOptBlock (paragraph (.str text) bnone)
    else if item.type = "heading1".data then
      .oneR (heading1 (.str text)
        { bnone with color := item.color, toggleable := item.toggleable })
    else if item.type = "heading2".data then
      .oneR (heading2 (.str text)
        { bnone with color := item.color, toggleable := item.toggleable })
    else if item.type = "heading3".data then
      .oneR (heading3 (.str text)
        { bnone with color := item.color, toggleable := item.toggleable })
    else if item.type = "quote".data then
      .oneR (quote (.str text) { bnone with color := item.color })
    else if item.type = "callout".data then
      .oneR (callout (.str text) { bnone with icon := item.icon, color := item.color })
    else if item.type = "info".data then
      .oneR (noteImportante text .info)
    else if item.type = "warning".data then
      .oneR (noteImportante text .warning)
    else if item.type = "tip".data then
      .oneR (noteImportante text .tip)
    else if item.type = "danger".data then
      .oneR (noteImportante text .danger)
    else if item.type = "code".data then
      .oneR (code (orElseStr2 item.codeText item.text)
        (orElseStr item.language "javascript".data) item.caption)
    else if item.type = "equation".data then
      .oneR (equation text)
    else if item.type = "codeWithExplanation".data then
      .manyR (codeWithExplanation (orElseStr item.codeText [])
        (orElseStr item.language "javascript".data)
        ((item.explanations.getD []).map (fun e => (e.line, e.explanation))))
    else if item.type = "bullet".data || item.type = "bulletedListItem".data then
      .oneR (bulletedListItem (.str text) bnone)
    else if item.type = "bullets".data then
      .manyR ((item.items.getD []).map (fun i => bulletedListItem (.str i) bnone))
    else if item.type = "numbered".data || item.type = "numberedListItem".data then
      .oneR (numberedListItem (.str text) bnone)
    else if item.type = "numberedList".data then
      .manyR ((item.items.getD []).map (fun i => numberedListItem (.str i) bnone))
    else if item.type = "todo".data then
      .oneR (todo (.str text) (item.checked.getD false) bnone)
    else if item.type = "todoList".data then
      .manyR ((item.items.getD []).map (fun i => todo (.str i) false bnone))
    else if item.type = "toggle".data then
      let toggleChildren :=
        (item.children.getD []).flatMap (fun c => resultBlocks (buildCourseBlock fuel c))
      .oneR (toggle (.str text) (filterValidBlocks toggleChildren)
        { bnone with color := item.color })
    else if item.type = "image".data then
      ofOptBlock (image (orElseStr item.url []) item.caption)
    else if item.type = "video".data then
      ofOptBlock (video (orElseStr item.url []) item.caption)
    else if item.type = "audio".data then
      ofOptBlock (audio (orElseStr item.url []) item.caption)
    else if item.type = "pdf".data then
      ofOptBlock (pdf (orElseStr item.url []) item.caption)
    else if item.type = "embed".data then
      ofOptBlock (embed (orElseStr item.url []))
    else if item.type = "bookmark".data || item.type = "linkPreview".data then
      ofOptBlock (bookmark (orElseStr item.url []) item.caption)
    else if item.type = "divider".data then
      .oneR divider
    else if item.type = "tableOfContents".data then
      .oneR (tableOfContents item.color)
    else if item.type = "breadcrumb".data then
      .oneR breadcrumb
    else if item.type = "table".data then
      .oneR (table ((item.rows.getD []).map (fun r => r.map TableCell.strC))
        (some true) none)
    else if item.type = "columns".data || item.type = "comparison".data then
      match item.left, item.right with
      | some l, some r =>
        .oneR (comparison l.title (l.items.map (fun i => bulletedListItem (.str i) bnone))
          r.title (r.items.map (fun i => bulletedListItem (.str i) bnone)))
      | _, _ => .oneR divider
    else if item.type = "definition".data then
      .oneR (definition (orElseStr item.term []) (orElseStr2 item.defn item.text) none)
    else if item.type = "step".data then
      .oneR (step (orElseInt item.stepNumber 1) text item.caption none)
    else if item.type = "exercice".data || item.type = "exercise".data then
      .oneR (exercice (orElseStr item.text "Exercice".data)
        (orElseList item.instructions item.items) item.solution)
    else if item.type = "quiz".data || item.type = "quickQuiz".data then
      ofOptBlock (quickQuiz (orElseStr2 item.question item.text)
        (item.options.getD []) (orElseInt item.correctIndex 0))
    else if item.type = "summary".data || item.type = "chapterSummary".data then
      .oneR (chapterSummary (item.items.getD []))
    else if item.type = "objectives".data || item.type = "learningObjectives".data then
      .oneR (learningObjectives (orElseList item.objectives item.items))
    else if item.type = "prerequisites".data then
      .oneR (prerequisites (item.items.getD []))
    else if item.type = "estimatedTime".data then
      .oneR (estimatedTime (orElseInt item.minutes 30))
    else
      ofOptBlock (paragraph
        (.str (orElseStr item.text
          ("[Type non reconnu: ".data ++ item.type ++ "]".data))) bnone)

/-- Chunking loop of `chunkArray` with the loop counter replaced by the
remaining suffix; the fuel argument bounds the number of iterations
(the array length suffices for any positive chunk size). -/
def chunkArrayGo {α : Type} : Nat → List α → Nat → List (List α)
  | 0, _, _ => []
  | fuel + 1, l, size =>
    match l with
    | [] => []
    | _ :: _ => l.take size :: chunkArrayGo fuel (l.drop size) size

/-- The `chunkArray` helper of the Notion adapter: split an array into
consecutive slices of the given size. -/
def chunkArray {α : Type} (array : List α) (size : Nat) : List (List α) :=
  chunkArrayGo array.length array size

/-- The remote calls issued by `appendBlocks`: one children-append call
per 100-element chunk, in chunk order.  The call sequence is the
observable effect of the method (each element is the page id and the
children payload of one sequentially awaited request). -/
def appendBlocksCalls (pageId : Str) (blocks : List Block) : List (Str × List Block) :=
  (chunkArray blocks 100).map (fun chunk => (pageId, chunk))

/-- Parent reference chosen by the create-course endpoint. -/
inductive Parent where
  | databaseId (id : Str)
  | pageId (id : Str)
deriving DecidableEq

/-- Parent selection of the create-course endpoint: a 32-character id
without a dash is treated as a database id, anything else as a page id. -/
def chooseParent (parentId : Str) : Parent :=
  if parentId.length == 32 && !(parentId.contains '-') then .databaseId parentId
  else .pageId parentId

/-- The title payload `{ title: [{ text: { content: title } }] }`. -/
structure TitleProp where
  content : Str
deriving DecidableEq

/-- Page properties built by the create-course endpoint: the title starts
under the `title` key; for a database parent it is moved to the `Name`
key and the `title` key deleted. -/
def courseProperties (parent : Parent) (title : Str) : List (Str × TitleProp) :=
  match parent with
  | .databaseId _ => [("Name".data, ⟨title⟩)]
  | .pageId _ => [("title".data, ⟨title⟩)]

/-- Untyped JavaScript values reaching `validateCourse` and
`generateRecommendations` through the request body. -/
inductive JsVal where
  | nullV
  | undefV
  | boolV (b : Bool)
  | numV (n : Rat)
  | strV (s : Str)
  | arrV (xs : List JsVal)
  | objV (fields : List (Str × JsVal))

/-- Whether a value is `null` or `undefined`. -/
def nullish (v : JsVal) : Bool :=
  match v with
  | .nullV => true
  | .undefV => true
  | _ => false

/-- Whether a value is exactly `undefined`. -/
def isUndef (v : JsVal) : Bool :=
  match v with
  | .undefV => true
  | _ => false

/-- JavaScript truthiness. -/
def truthyV (v : JsVal) : Bool :=
  match v with
  | .nullV => false
  | .undefV => false
  | .boolV b => b
  | .numV n => !(n == 0)
  | .strV s => !s.isEmpty
  | .arrV _ => true
  | .objV _ => true

/-- Own-property lookup in an object's field list. -/
def lookupField (fields : List (Str × JsVal)) (key : Str) : JsVal :=
  match fields with
  | [] => .undefV
  | (k, v) :: rest => if k = key then v else lookupField rest key

/-- Property read on a non-nullish value: objects by field list, arrays
and strings expose `length`, other primitives have no own properties
read by this code. -/
def fieldOf (v : JsVal) (key : Str) : JsVal :=
  match v with
  | .objV fields => lookupField fields key
  | .arrV xs => if key = "length".data then .numV xs.length else .undefV
  | .strV s => if key = "length".data then .numV s.length else .undefV
  | _ => .undefV

/-- Property read as the JavaScript runtime performs it: a TypeError on
`null` and `undefined`, otherwise total. -/
def getField (v : JsVal) (key : Str) : Except Str JsVal :=
  if nullish v then .error "TypeError: cannot read properties of null or undefined".data
  else .ok (fieldOf v key)

/-- A `.trim()` call: only strings have the method. -/
def trimCall (v : JsVal) : Except Str JsVal :=
  match v with
  | .strV s => .ok (.strV (jsTrim s))
  | _ => .error "TypeError: trim is not a function".data

/-- A `.forEach(...)` call target: only arrays have the method. -/
def asArrayForEach (v : JsVal) : Except Str (List JsVal) :=
  match v with
  | .arrV xs => .ok xs
  | _ => .error "TypeError: forEach is not a function".data

/-- Sum of the integer digits of a string, when all are digits. -/
def digitsVal (s : Str) : Option Nat :=
  s.foldl
    (fun acc c =>
      match acc with
      | none => none
      | some n => if c.isDigit then some (n * 10 + (c.toNat - 48)) else none)
    (some 0)

/-- Modelled from the spec: numeric coercion of strings by the platform
(`Number(string)`) is not part of this repository; it is embedded for
plain decimal literals (optional sign, digits, optional fraction), with
`none` standing for NaN. -/
def jsStrToNumber (s : Str) : Option Rat :=
  let t := jsTrim s
  if t.isEmpty then some 0
  else
    let signed : Rat × Str :=
      match t with
      | '-' :: r => (-1, r)
      | '+' :: r => (1, r)
      | _ => (1, t)
    let intPart := signed.2.takeWhile Char.isDigit
    match signed.2.dropWhile Char.isDigit with
    | [] =>
      if intPart.isEmpty then none
      else (digitsVal intPart).map (fun n => signed.1 * n)
    | '.' :: frac =>
      if frac.all Char.isDigit then
        match digitsVal intPart, digitsVal frac with
        | some i, some f =>
          if intPart.isEmpty && frac.isEmpty then none
          else some (signed.1 * ((i : Rat) + (f : Rat) / ((10 : Rat) ^ frac.length)))
        | _, _ => none
      else none
    | _ => none

/-- Numeric coercion of a value, with `none` standing for NaN; the array
and object branches, never exercised with numeric content by this
repository, coerce to NaN. -/
def jsToNumber (v : JsVal) : Option Rat :=
  match v with
  | .nullV => some 0
  | .undefV => none
  | .boolV b => some (if b then 1 else 0)
  | .numV n => some n
  | .strV s => jsStrToNumber s
  | .arrV _ => none
  | .objV _ => none

/-- The numeric comparison `a >= b` (false on NaN). -/
def jsGE (a b : JsVal) : Bool :=
  match jsToNumber a, jsToNumber b with
  | some x, some y => decide (y ≤ x)
  | _, _ => false

/-- The numeric comparison `a < b` (false on NaN). -/
def jsLT (a b : JsVal) : Bool :=
  match jsToNumber a, jsToNumber b with
  | some x, some y => decide (x < y)
  | _, _ => false

/-- The numeric comparison `a > b` (false on NaN). -/
def jsGT (a b : JsVal) : Bool :=
  match jsToNumber a, jsToNumber b with
  | some x, some y => decide (y < x)
  | _, _ => false

/-- Strict equality against a string literal. -/
def jsStrictEqStr (v : JsVal) (s : Str) : Bool :=
  match v with
  | .strV t => t == s
  | _ => false

/-- Strict equality against a number literal. -/
def jsStrictEqNum (v : JsVal) (q : Rat) : Bool :=
  match v with
  | .numV n => n == q
  | _ => false

/-- Value of `a || b`. -/
def jsOr (a b : JsVal) : JsVal := if truthyV a then a else b

/-- Value of `v?.length`. -/
def optChainLength (v : JsVal) : JsVal :=
  if nullish v then .undefV else fieldOf v "length".data

/-- Result of a JavaScript division, where NaN and the infinities can
arise from a zero denominator or NaN operands. -/
inductive JsNumRes where
  | nanN
  | pinfN
  | ninfN
  | finN (q : Rat)

/-- The division `a / b` on coerced operands. -/
def jsDiv (a b : JsVal) : JsNumRes :=
  match jsToNumber a, jsToNumber b with
  | some x, some y =>
    if y = 0 then
      if x = 0 then .nanN else if 0 < x then .pinfN else .ninfN
    else .finN (x / y)
  | _, _ => .nanN

/-- The comparison `r > c` on a division result (false on NaN). -/
def jsNumGT (r : JsNumRes) (c : Rat) : Bool :=
  match r with
  | .nanN => false
  | .pinfN => true
  | .ninfN => false
  | .finN q => decide (c < q)

/-- Modelled from the spec: string coercion of a non-string URL value by
the platform URL constructor is not exercised by this repository; a
non-string value is treated as an invalid URL. -/
def isValidUrlVal (v : JsVal) : Bool :=
  match v with
  | .strV s => isValidUrl s
  | _ => false

/-- The string payload of a value known to be a string. -/
def strOf (v : JsVal) : Str :=
  match v with
  | .strV s => s
  | _ => []

/-- Result record of `validateCourse`. -/
structure ValidationResult where
  valid : Bool
  errors : List Str
  warnings : List Str

/-- Decimal rendering of a natural number. -/
def natToStr (n : Nat) : Str := (toString n).data

/-- The `Section N: ` message prefix of the validator. -/
def sectionLabel (idx : Nat) : Str :=
  "Section ".data ++ natToStr (idx + 1) ++ ": ".data

/-- Quiz checks of the validator's per-item loop. -/
def checkQuiz (idx : Nat) (item ty : JsVal) (errors : List Str) :
    Except Str (List Str) := do
  if jsStrictEqStr ty "quiz".data || jsStrictEqStr ty "quickQuiz".data then do
    let opts ← getField item "options".data
    let errors :=
      if !truthyV opts || jsLT (fieldOf opts "length".data) (.numV 2) then
        errors ++ [sectionLabel idx ++ "Quiz avec trop peu d\x27options".data]
      else errors
    let ci ← getField item "correctIndex".data
    if !isUndef ci && jsGE ci (jsOr (optChainLength opts) (.numV 0)) then
      pure (errors ++ [sectionLabel idx ++ "Quiz correctIndex invalide".data])
    else pure errors
  else pure errors

/-- The URL checks of the validator's per-item loop. -/
def checkUrl (idx : Nat) (item ty : JsVal) (errors : List Str) :
    Except Str (List Str) := do
  if jsStrictEqStr ty "image".data || jsStrictEqStr ty "video".data ||
      jsStrictEqStr ty "audio".data || jsStrictEqStr ty "pdf".data then do
    let url ← getField item "url".data
    if truthyV url && !isValidUrlVal url then
      pure (errors ++ [sectionLabel idx ++ "URL invalide pour ".data ++ strOf ty])
    else pure errors
  else pure errors

/-- The overlong-text check of the validator's per-item loop. -/
def checkText (idx : Nat) (item : JsVal) (warnings : List Str) :
    Except Str (List Str) := do
  let txt ← getField item "text".data
  if truthyV txt && jsGT (fieldOf txt "length".data) (.numV 2000) then
    let lengthStr :=
      match fieldOf txt "length".data with
      | .numV q => intToStr q.num
      | _ => []
    pure (warnings ++ [sectionLabel idx ++ "Texte trop long (".data ++ lengthStr ++
      " chars)".data])
  else pure warnings

/-- One step of the validator's per-item loop, carrying the error list,
the warning list and the consecutive-paragraph counter. -/
def validateItemStep (idx : Nat) (acc : List Str × List Str × Nat) (item : JsVal) :
    Except Str (List Str × List Str × Nat) := do
  let (errors, warnings, consec) := acc
  let ty ← getField item "type".data
  let stepped : List Str × Nat :=
    if jsStrictEqStr ty "paragraph".data then
      let c := consec + 1
      (if 3 ≤ c then
         warnings ++ [sectionLabel idx ++ natToStr c ++
           " paragraphes consécutifs. Variez les types de blocs!".data]
       else warnings, c)
    else (warnings, 0)
  let errors ← checkQuiz idx item ty errors
  let errors ← checkUrl idx item ty errors
  let warnings ← checkText idx item stepped.1
  pure (errors, warnings, stepped.2)

/-- One step of the validator's per-section loop, carrying the error and
warning lists and the section index. -/
def validateSectionStep (acc : List Str × List Str × Nat) (s : JsVal) :
    Except Str (List Str × List Str × Nat) := do
  let (errors, warnings, idx) := acc
  let title ← getField s "title".data
  let errors :=
    if !truthyV title then errors ++ [sectionLabel idx ++ "titre manquant".data]
    else errors
  let content ← getField s "content".data
  let errors :=
    if !truthyV content || jsStrictEqNum (fieldOf content "length".data) 0 then
      errors ++ [sectionLabel idx ++ "contenu manquant".data]
    else errors
  if nullish content then pure (errors, warnings, idx + 1)
  else do
    let items ← asArrayForEach content
    let stepped ← items.foldlM (validateItemStep idx) (errors, warnings, 0)
    pure (stepped.1, stepped.2.1, idx + 1)

/-- The course validator `validateCourse` of `block-builders`, embedded in
the `Except` monad so that the TypeErrors the JavaScript runtime would
raise on malformed values are explicit. -/
def validateCourse (course : JsVal) : Except Str ValidationResult := do
  let title ← getField course "title".data
  let titleBad ←
    if !truthyV title then pure true
    else do
      let t ← trimCall title
      pure (jsStrictEqNum (fieldOf t "length".data) 0)
  let errors : List Str := if titleBad then ["Titre manquant".data] else []
  let sections ← getField course "sections".data
  let errors :=
    if !truthyV sections || jsStrictEqNum (fieldOf sections "length".data) 0 then
      errors ++ ["Au moins une section requise".data]
    else errors
  if nullish sections then pure ⟨errors.isEmpty, errors, []⟩
  else do
    let secs ← asArrayForEach sections
    let stepped ← secs.foldlM validateSectionStep (errors, [], 0)
    pure ⟨stepped.1.isEmpty, stepped.1, stepped.2.1⟩

/-- The recommendation generator `generateRecommendations` of
`block-builders`, embedded like the validator. -/
def generateRecommendations (stats : JsVal) : Except Str (List Str) := do
  let bt ← getField stats "blockTypes".data
  let p ← getField bt "paragraph".data
  let totalBlocks ← getField stats "totalBlocks".data
  let paragraphRatio := jsDiv (jsOr p (.numV 0)) totalBlocks
  let recommendations : List Str :=
    if jsNumGT paragraphRatio (1 / 2) then
      ["⚠️ Trop de paragraphes (>50%). Ajoute plus d\x27exercices, quiz ou blocs interactifs.".data]
    else []
  let e1 ← getField bt "exercice".data
  let e2 ← getField bt "exercise".data
  let recommendations :=
    if !truthyV e1 && !truthyV e2 then
      recommendations ++
        ["💡 Aucun exercice détecté. Ajoute des exercices pratiques pour renforcer l\x27apprentissage.".data]
    else recommendations
  let q1 ← getField bt "quiz".data
  let q2 ← getField bt "quickQuiz".data
  let recommendations :=
    if !truthyV q1 && !truthyV q2 then
      recommendations ++
        ["💡 Aucun quiz détecté. Ajoute des quiz pour valider la compréhension.".data]
    else recommendations
  let totalSections ← getField stats "totalSections".data
  let avgBlocksPerSection := jsDiv totalBlocks totalSections
  let recommendations :=
    if jsNumGT avgBlocksPerSection 15 then
      recommendations ++
        ["⚠️ Sections trop longues (>15 blocs en moyenne). Découpe-les pour améliorer la lisibilité.".data]
    else recommendations
  pure (if recommendations.isEmpty then
    ["✅ Structure excellente ! Le cours est bien équilibré.".data]
  else recommendations)

/-! Helper lemmas on the string primitives. -/

/-- Whether the list ends with the given suffix. -/
def endsWith (l suf : Str) : Bool := suf.reverse.isPrefixOf l.reverse

/-- Substring test used to state visibility of a marker in a text. -/
def containsSub (needle hay : Str) : Bool :=
  if needle.isPrefixOf hay then true
  else
    match hay with
    | [] => false
    | _ :: t => containsSub needle t

theorem dropWhile_cons_of_neg (p : Char → Bool) (x : Char) (xs : List Char)
    (h : p x = false) : (x :: xs).dropWhile p = x :: xs := by
  simp [List.dropWhile, h]

theorem jsTrimLeft_cons (c : Char) (t : Str) (h : isWsChar c = false) :
    jsTrimLeft (c :: t) = c :: t :=
  dropWhile_cons_of_neg _ _ _ h

theorem jsTrimRight_append_last (l : Str) (c : Char) (h : isWsChar c = false) :
    jsTrimRight (l ++ [c]) = l ++ [c] := by
  unfold jsTrimRight
  rw [List.reverse_append]
  simp only [List.reverse_cons, List.reverse_nil, List.nil_append, List.singleton_append]
  rw [dropWhile_cons_of_neg _ _ _ h]
  simp

theorem jsTrim_of_ends (c d : Char) (mid : Str)
    (hc : isWsChar c = false) (hd : isWsChar d = false) :
    jsTrim (c :: (mid ++ [d])) = c :: (mid ++ [d]) := by
  unfold jsTrim
  rw [jsTrimLeft_cons _ _ hc]
  have : c :: (mid ++ [d]) = (c :: mid) ++ [d] := rfl
  rw [this, jsTrimRight_append_last _ _ hd]

theorem dropWhile_ws_replicate (n : Nat) :
    (List.replicate n ' ').dropWhile isWsChar = [] := by
  rw [List.dropWhile_eq_nil_iff]
  intro x hx
  rw [List.eq_of_mem_replicate hx]
  decide

theorem endsWith_append (a b : Str) : endsWith (a ++ b) b = true := by
  unfold endsWith
  rw [List.reverse_append, List.isPrefixOf_iff_prefix ]
  exact List.prefix_append _ _

theorem containsSub_append_mid (n pre post : Str) :
    containsSub n (pre ++ (n ++ post)) = true := by
  induction pre with
  | nil =>
    unfold containsSub
    rw [if_pos]
    rw [ List.isPrefixOf_iff_prefix]
    exact (List.nil_append (n ++ post)) ▸ List.prefix_append n post
  | cons p ps ih =>
    unfold containsSub
    split
    · rfl
    · exact ih

/-! Claims C1 to C3. -/

/-- C1, counterexample.  On the claim's input the formatter emits two runs,
not the claimed three: the italic pattern also matches the two spans
overlapping the bold token, both are dropped by the overlap rule, and the
tail text stays one plain run. -/
theorem c1_counterexample :
    (parseFormattedText "**a** and *b*".data).length = 2 ∧
    parseFormattedText "**a** and *b*".data ≠
      [⟨"a".data, none, ⟨true, false, false, false, false, "default".data⟩⟩,
       ⟨" and ".data, none, ⟨false, false, false, false, false, "default".data⟩⟩,
       ⟨"b".data, none, ⟨false, true, false, false, false, "default".data⟩⟩] := by
  constructor
  · rfl
  · decide

/-- C1, amended.  On the input string of the claim the formatter returns
exactly two runs in order: a bold run with content a, and a plain run
whose content is the trimmed trailing text including the undetected
italic markers. -/
theorem c1_two_runs :
    parseFormattedText "**a** and *b*".data =
      [richText "a".data boldOpt, richText " and *b*".data noOpts] ∧
    (parseFormattedText "**a** and *b*".data).map RichText.content =
      ["a".data, "and *b*".data] ∧
    (parseFormattedText "**a** and *b*".data).map (fun r => r.annots.bold) =
      [true, false] ∧
    (parseFormattedText "**a** and *b*".data).map (fun r => r.annots.italic) =
      [false, false] :=
  ⟨rfl, rfl, rfl, rfl⟩

/-- C2.  Every run produced by the single-run constructor has non-empty
content, and every input that is empty or whitespace-only (trims to
nothing) yields exactly the run whose content is a single space. -/
theorem c2_nonempty_run (s : Str) (opts : RichTextOptions) :
    (richText s opts).content ≠ [] ∧
    (jsTrim s = [] →
      richText s opts =
        ⟨" ".data, none, ⟨false, false, false, false, false, "default".data⟩⟩) := by
  constructor
  · simp only [richText]
    by_cases hlen : 2000 < (jsTrim s).length
    · rw [if_pos hlen, if_neg (by simp)]
      simp
    · rw [if_neg hlen]
      by_cases hz : (jsTrim s).isEmpty
      · rw [if_pos hz]
        simp
      · rw [if_neg hz]
        simpa using hz
  · intro h
    simp [richText, h]

/-- C2, witness at the all-whitespace input of three spaces. -/
theorem c2_witness :
    (richText "   ".data noOpts).content ≠ [] ∧
    richText "   ".data noOpts =
      ⟨" ".data, none, ⟨false, false, false, false, false, "default".data⟩⟩ :=
  ⟨(c2_nonempty_run "   ".data noOpts).1,
   (c2_nonempty_run "   ".data noOpts).2 (by decide)⟩

/-- C3, counterexample.  The constructor trims before the length check, so
the 2001-code-point input of one letter followed by 2000 spaces escapes
truncation: its run content is the single letter, whose length is within
bounds but which does not end with the ellipsis marker. -/
theorem c3_counterexample :
    2000 < ('a' :: List.replicate 2000 ' ' : Str).length ∧
    ¬ ((richText ('a' :: List.replicate 2000 ' ') noOpts).content.length ≤ 2000 ∧
       endsWith (richText ('a' :: List.replicate 2000 ' ') noOpts).content
         "...".data = true) := by
  have htrim : jsTrim ('a' :: List.replicate 2000 ' ') = ['a'] := by
    unfold jsTrim
    rw [jsTrimLeft_cons _ _ (by decide)]
    unfold jsTrimRight
    rw [List.reverse_cons, List.reverse_replicate, List.dropWhile_append,
      dropWhile_ws_replicate]
    simp only [List.isEmpty_nil, if_true]
    rw [dropWhile_cons_of_neg _ _ _ (by decide)]
    simp
  have hcontent : (richText ('a' :: List.replicate 2000 ' ') noOpts).content = ['a'] := by
    simp only [richText, htrim]
    norm_num
  constructor
  · rw [List.length_cons, List.length_replicate]
    omega
  · intro hclaim
    rw [hcontent] at hclaim
    exact absurd hclaim.2 (by decide)

/-- C3, amended.  For every input whose trimmed form is longer than 2000
code points (the constructor trims before measuring), the produced run's
content has length at most 2000 and ends with the ellipsis marker. -/
theorem c3_truncation (s : Str) (opts : RichTextOptions)
    (h : 2000 < (jsTrim s).length) :
    (richText s opts).content.length ≤ 2000 ∧
    endsWith (richText s opts).content "...".data = true := by
  have hcontent : (richText s opts).content = (jsTrim s).take 1997 ++ "...".data := by
    simp only [richText]
    rw [if_pos h, if_neg (by simp)]
  constructor
  · rw [hcontent]
    have hm : min 1997 (jsTrim s).length = 1997 := Nat.min_eq_left (by omega)
    simp only [List.length_append, List.length_take, hm]
    decide
  · rw [hcontent]
    exact endsWith_append _ _

/-- C3, witness at the input of 2001 letters. -/
theorem c3_witness :
    2000 < (jsTrim (List.replicate 2001 'a')).length ∧
    (richText (List.replicate 2001 'a') noOpts).content.length ≤ 2000 ∧
    endsWith (richText (List.replicate 2001 'a') noOpts).content "...".data = true := by
  have hstep : (List.replicate 2001 'a').dropWhile isWsChar = List.replicate 2001 'a' := by
    rw [List.replicate_succ]
    exact dropWhile_cons_of_neg _ _ _ (by decide)
  have h : 2000 < (jsTrim (List.replicate 2001 'a')).length := by
    unfold jsTrim jsTrimLeft jsTrimRight
    rw [hstep, List.reverse_replicate, hstep, List.reverse_replicate,
      List.length_replicate]
    omega
  exact ⟨h, (c3_truncation _ noOpts h).1, (c3_truncation _ noOpts h).2⟩

/-! Claims C5 and C6. -/

theorem parseFormattedText_ne_nil (t : Str) :
    (parseFormattedText t).isEmpty = false := by
  simp only [parseFormattedText]
  split
  · rfl
  · split
    · next h => simpa using h
    · rfl

theorem jsTrim_bracket (a url : Str) :
    jsTrim (('[' :: a) ++ url ++ "]".data) = ('[' :: a) ++ url ++ "]".data := by
  have hform : ('[' :: a) ++ url ++ "]".data = '[' :: ((a ++ url) ++ [']']) := by simp
  rw [hform]
  exact jsTrim_of_ends _ _ _ (by decide) (by decide)

theorem marker_paragraph (a url : Str) :
    paragraph (.str (('[' :: a) ++ url ++ "]".data)) bnone =
      some (.paragraphB (parseFormattedText (('[' :: a) ++ url ++ "]".data))
        "default".data none) := by
  have htrim := jsTrim_bracket a url
  have hne : parseFormattedText (('[' :: a) ++ url ++ "]".data) ≠ [] := by
    have h0 := parseFormattedText_ne_nil (('[' :: a) ++ url ++ "]".data)
    simp only [List.isEmpty_eq_false] at h0
    exact h0
  have hrts : toRichTextArray (.str (('[' :: a) ++ url ++ "]".data))
      (bnone.parseMarkdown != some false) =
      some (parseFormattedText (('[' :: a) ++ url ++ "]".data)) := by
    simp only [toRichTextArray, htrim]
    rw [if_neg (by simp), if_pos (by rfl)]
  simp only [paragraph, hrts]
  rw [if_neg (by simpa using hne)]
  rfl

/-- C5.  The quiz template never returns a malformed quiz block: fewer than
two options give the plain-text error paragraph instead of a quiz
callout, and for at least two options an out-of-range correct index is
clamped to 0, so the call equals the call with index 0 and the
revealed-answer callout names the lettered option A followed by the
first (trimmed) option. -/
theorem c5_quickQuiz (question : Str) (options : List Str) (correctIndex : Int) :
    (options.length < 2 →
      quickQuiz question options correctIndex =
        some (.paragraphB [richText "Quiz invalide : options manquantes".data noOpts]
          "default".data none)) ∧
    (2 ≤ options.length →
      (correctIndex < 0 ∨ (options.length : Int) ≤ correctIndex) →
      quickQuiz question options correctIndex = quickQuiz question options 0 ∧
      ∃ bullets,
        quickQuiz question options correctIndex =
          some (callout
            (.rich [richText "Quiz: ".data boldOpt,
                    richText (jsTrim (stripWordColonPhrase "Quiz".data
                      (cleanLeadingEmoji question))) noOpts])
            { bnone with icon := some "🧠".data, color := some "purple_background".data,
                         children := some (bullets ++
                           [toggle (.str "Voir la réponse".data)
                             [callout (.str ("La bonne réponse est A) ".data ++
                                 jsTrim (options.headD [])))
                               { bnone with icon := some "✅".data,
                                            color := some "green_background".data }]
                             bnone]) })) := by
  constructor
  · intro h
    simp only [quickQuiz, if_pos h]
    rfl
  · intro hlen hidx
    have hnot : ¬ options.length < 2 := by omega
    have hcond : (decide (correctIndex < 0) ||
        decide ((options.length : Int) ≤ correctIndex)) = true := by
      rcases hidx with h | h <;> simp [h]
    have hcond0 : (decide ((0 : Int) < 0) ||
        decide ((options.length : Int) ≤ (0 : Int))) = false := by
      simp
      rintro rfl
      simp at hlen
    match options, hlen with
    | o :: o2 :: rest, _ =>
      constructor
      · simp only [quickQuiz, if_neg hnot, hcond, hcond0]
        norm_num
      · refine ⟨((o :: o2 :: rest).map jsTrim).enum.map (fun p =>
          bulletedListItem (.str (letterStr p.1 ++ ") ".data ++ p.2)) bnone), ?_⟩
        simp only [quickQuiz, if_neg hnot, hcond]
        norm_num
        rfl

/-- C6.  For every URL rejected by the scheme validation, none of the seven
URL-bearing builders throws or returns its media block: each returns the
paragraph block built from its visible error marker string, and that
string names the invalid URL. -/
theorem c6_url_degradation (url : Str) (caption : Option Str)
    (h : isValidUrl url = false) :
    image url caption =
      some (.paragraphB (parseFormattedText ("[Image invalide: ".data ++ url ++ "]".data))
        "default".data none) ∧
    containsSub url ("[Image invalide: ".data ++ url ++ "]".data) = true ∧
    video url caption =
      some (.paragraphB (parseFormattedText ("[Vidéo invalide: ".data ++ url ++ "]".data))
        "default".data none) ∧
    audio url caption =
      some (.paragraphB (parseFormattedText ("[Audio invalide: ".data ++ url ++ "]".data))
        "default".data none) ∧
    pdf url caption =
      some (.paragraphB (parseFormattedText ("[PDF invalide: ".data ++ url ++ "]".data))
        "default".data none) ∧
    file url none caption =
      some (.paragraphB (parseFormattedText ("[Fichier invalide: ".data ++ url ++ "]".data))
        "default".data none) ∧
    embed url =
      some (.paragraphB (parseFormattedText ("[Embed invalide: ".data ++ url ++ "]".data))
        "default".data none) ∧
    bookmark url caption =
      some (.paragraphB (parseFormattedText ("[Bookmark invalide: ".data ++ url ++ "]".data))
        "default".data none) := by
  have hmem : ∀ a post : Str, containsSub url (a ++ url ++ post) = true := by
    intro a post
    rw [List.append_assoc]
    exact containsSub_append_mid url a post
  refine ⟨?_, hmem "[Image invalide: ".data "]".data, ?_, ?_, ?_, ?_, ?_, ?_⟩ <;>
    simp only [image, video, audio, pdf, file, embed, bookmark, h,
      Bool.not_false, if_pos] <;>
    exact marker_paragraph _ url

/-! Claim C7. -/

theorem jsTrimRight_append_of (a b : Str) (hb : jsTrimRight b = b) (hbne : b ≠ []) :
    jsTrimRight (a ++ b) = a ++ b := by
  have hrev : b.reverse.dropWhile isWsChar = b.reverse := by
    have h0 : (b.reverse.dropWhile isWsChar).reverse = b := hb
    calc b.reverse.dropWhile isWsChar
        = ((b.reverse.dropWhile isWsChar).reverse).reverse := by rw [List.reverse_reverse]
      _ = b.reverse := by rw [h0]
  unfold jsTrimRight
  rw [List.reverse_append, List.dropWhile_append, hrev]
  rw [if_neg (by simp [List.isEmpty_iff, hbne])]
  simp

/-- C7, counterexample.  A title beginning with the English phrase of the
claim is not stripped: the replace pattern of the source matches the
French word, so the emitted title run still contains the input's leading
phrase. -/
theorem c7_counterexample :
    exercice "Exercise: Add".data ["x".data] (some "sol".data) =
      callout (.rich [richText "Exercice: ".data boldOpt,
                      richText "Exercise: Add".data noOpts])
        { bnone with icon := some "✏️".data, color := some "orange_background".data,
                     children := some [bulletedListItem (.str "x".data) bnone,
                       toggle (.str "💡 Voir la solution".data)
                         [code "sol".data "plain text".data none]
                         { bnone with color := some "green_background".data }] } ∧
    containsSub "Exercise:".data "Exercise: Add".data = true :=
  ⟨rfl, by decide⟩

/-- C7, amended.  For every title beginning with the French phrase the
template strips (the word, a colon and a space), the emitted callout's
second title run is exactly the remaining text, with the phrase
stripped, and a non-empty solution makes the children end with a toggle
holding the solution as a code block. -/
theorem c7_exercice (rest : Str) (instructions : List Str) (sol : Str)
    (hL : jsTrimLeft rest = rest) (hR : jsTrimRight rest = rest)
    (hne : rest ≠ []) (hsol : sol ≠ []) :
    exercice ("Exercice: ".data ++ rest) instructions (some sol) =
      callout (.rich [richText "Exercice: ".data boldOpt, richText rest noOpts])
        { bnone with icon := some "✏️".data, color := some "orange_background".data,
                     children := some (
                       ((instructions.map jsTrim).filter (fun i => 0 < i.length)).map
                         (fun i => bulletedListItem (.str i) bnone) ++
                       [toggle (.str "💡 Voir la solution".data)
                         [code (jsTrim sol) "plain text".data none]
                         { bnone with color := some "green_background".data }]) } := by
  have h1 : jsTrimLeft ("Exercice: ".data ++ rest) = "Exercice: ".data ++ rest :=
    jsTrimLeft_cons 'E' ("xercice: ".data ++ rest) (by decide)
  have h2 : jsTrimRight ("Exercice: ".data ++ rest) = "Exercice: ".data ++ rest :=
    jsTrimRight_append_of "Exercice: ".data rest hR hne
  have hjt : jsTrim ("Exercice: ".data ++ rest) = "Exercice: ".data ++ rest := by
    unfold jsTrim
    rw [h1, h2]
  have hclean : cleanLeadingEmoji ("Exercice: ".data ++ rest) =
      "Exercice: ".data ++ rest := by
    unfold cleanLeadingEmoji
    rw [hjt]
    rfl
  have hdrop : rest.dropWhile isWsChar = rest := hL
  have hstrip : stripWordColonPhrase "Exercice".data ("Exercice: ".data ++ rest) =
      rest.dropWhile isWsChar := rfl
  have hjrest : jsTrim rest = rest := by
    unfold jsTrim
    rw [show jsTrimLeft rest = rest from hL, hR]
  simp only [exercice, hclean, hstrip, hdrop, hjrest]
  rw [if_neg (by simp [hsol])]

/-! Claim C4. -/

/-- The type tags handled by the dispatch of `buildCourseBlock`. -/
def knownTypes : List Str :=
  ["paragraph".data,
   "heading1".data,
   "heading2".data,
   "heading3".data,
   "quote".data,
   "callout".data,
   "info".data,
   "warning".data,
   "tip".data,
   "danger".data,
   "code".data,
   "equation".data,
   "codeWithExplanation".data,
   "bullet".data,
   "bulletedListItem".data,
   "bullets".data,
   "numbered".data,
   "numberedListItem".data,
   "numberedList".data,
   "todo".data,
   "todoList".data,
   "toggle".data,
   "image".data,
   "video".data,
   "audio".data,
   "pdf".data,
   "embed".data,
   "bookmark".data,
   "linkPreview".data,
   "divider".data,
   "tableOfContents".data,
   "breadcrumb".data,
   "table".data,
   "columns".data,
   "comparison".data,
   "definition".data,
   "step".data,
   "exercice".data,
   "exercise".data,
   "quiz".data,
   "quickQuiz".data,
   "summary".data,
   "chapterSummary".data,
   "objectives".data,
   "learningObjectives".data,
   "prerequisites".data,
   "estimatedTime".data]

theorem scanTokens_eq_nil (d : Char) (o close : Str) (opts : RichTextOptions)
    (fuel : Nat) : ∀ (pos : Nat) (s : Str), (∀ x ∈ s, x ≠ d) →
    scanTokens (d :: o) close opts fuel pos s = [] := by
  induction fuel with
  | zero => intro pos s _; rfl
  | succ n ih =>
    intro pos s h
    match s with
    | [] => rfl
    | c :: rest =>
      have hd : ((d :: o).isPrefixOf (c :: rest)) = false := by
        have hc : c ≠ d := h c (List.mem_cons_self c rest)
        simp [List.isPrefixOf]
        intro h'
        exact absurd h'.symm hc
      simp only [scanTokens, hd, Bool.false_eq_true, if_false]
      exact ih (pos + 1) rest (fun x hx => h x (List.mem_cons_of_mem c hx))

theorem lazyLinkCapture_eq_none (r : Str) : ∀ (acc : Str), (∀ x ∈ r, x ≠ '(') →
    lazyLinkCapture r acc = none := by
  induction r with
  | nil => intro acc _; rfl
  | cons c rest ih =>
    intro acc h
    by_cases hc : c = '\n'
    · simp [lazyLinkCapture, hc]
    · have hpre : ([']', '('].isPrefixOf rest) = false := by
        match rest with
        | [] => rfl
        | [r1] => simp [List.isPrefixOf]
        | r1 :: r2 :: rest3 =>
          have h2 : r2 ≠ '(' := h r2 (by simp)
          simp [List.isPrefixOf]
          intro _ h'
          exact absurd h'.symm h2
      simp only [lazyLinkCapture, hc, hpre, Bool.false_eq_true, if_false]
      exact ih (acc ++ [c]) (fun x hx => h x (List.mem_cons_of_mem c hx))

theorem scanLinkTokens_eq_nil (fuel : Nat) : ∀ (pos : Nat) (s : Str),
    (∀ x ∈ s, x ≠ '(') → scanLinkTokens fuel pos s = [] := by
  induction fuel with
  | zero => intro pos s _; rfl
  | succ n ih =>
    intro pos s h
    match s with
    | [] => rfl
    | c :: rest =>
      have hsub : ∀ x ∈ rest, x ≠ '(' := fun x hx => h x (List.mem_cons_of_mem c hx)
      by_cases hbr : c = '['
      · simp only [scanLinkTokens, if_pos hbr, lazyLinkCapture_eq_none rest [] hsub]
        exact ih (pos + 1) rest hsub
      · simp only [scanLinkTokens, if_neg hbr]
        exact ih (pos + 1) rest hsub

theorem parseFormattedText_plain (t : Str)
    (h : ∀ x ∈ t, x ≠ '*' ∧ x ≠ '`' ∧ x ≠ '~' ∧ x ≠ '(') :
    parseFormattedText t = [richText t noOpts] := by
  have hb := scanTokens_eq_nil '*' ['*'] ['*', '*'] boldOpt t.length 0 t
    (fun x hx => (h x hx).1)
  have hi := scanTokens_eq_nil '*' [] ['*'] italicOpt t.length 0 t
    (fun x hx => (h x hx).1)
  have hcx := scanTokens_eq_nil '`' [] ['`'] codeOpt t.length 0 t
    (fun x hx => (h x hx).2.1)
  have hsx := scanTokens_eq_nil '~' ['~'] ['~', '~'] strikeOpt t.length 0 t
    (fun x hx => (h x hx).2.2.1)
  have hl := scanLinkTokens_eq_nil t.length 0 t (fun x hx => (h x hx).2.2.2)
  simp only [parseFormattedText, hb, hi, hcx, hsx, hl, List.nil_append, List.append_nil]
  rfl

/-- C4, counterexample.  On the claim's own example item the dispatch
returns one paragraph whose visible text is the supplied text, which
does not include the unknown type name: the placeholder naming the type
is used only when the text field is absent or empty. -/
theorem c4_counterexample :
    buildCourseBlock 1 { emptyItem with type := "foobar".data, text := some "hi".data } =
      .oneR (.paragraphB [richText "hi".data noOpts] "default".data none) ∧
    containsSub "foobar".data
      (richText "hi".data noOpts).content = false :=
  ⟨rfl, by decide⟩

/-- C4, amended.  For every item whose type tag is not in the dispatch
table and whose text field is absent or empty, the compiler returns
exactly one paragraph block (never null, never an exception) built from
the placeholder string, and the placeholder's visible text includes the
literal unknown type name (stated for type names without inline-markdown
delimiter characters and of placeholder length within the run limit). -/
theorem c4_unknown_type (fuel : Nat) (item : ContentItem)
    (hunknown : item.type ∉ knownTypes)
    (htext : item.text = none ∨ item.text = some [])
    (hchars : ∀ x ∈ item.type, x ≠ '*' ∧ x ≠ '`' ∧ x ≠ '~' ∧ x ≠ '(')
    (hlen : item.type.length ≤ 1980) :
    buildCourseBlock (fuel + 1) item =
      .oneR (.paragraphB
        [richText ("[Type non reconnu: ".data ++ item.type ++ "]".data) noOpts]
        "default".data none) ∧
    containsSub item.type
      (richText ("[Type non reconnu: ".data ++ item.type ++ "]".data) noOpts).content =
      true := by
  simp only [knownTypes, List.mem_cons, List.not_mem_nil, or_false, not_or] at hunknown
  obtain ⟨h1, h2, h3, h4, h5, h6, h7, h8, h9, h10, h11, h12, h13, h14, h15, h16, h17, h18, h19, h20, h21, h22, h23, h24, h25, h26, h27, h28, h29, h30, h31, h32, h33, h34, h35, h36, h37, h38, h39, h40, h41, h42, h43, h44, h45, h46, h47⟩ := hunknown
  have hjt : jsTrim ("[Type non reconnu: ".data ++ item.type ++ "]".data) =
      "[Type non reconnu: ".data ++ item.type ++ "]".data :=
    jsTrim_bracket "Type non reconnu: ".data item.type
  have hcont : (richText ("[Type non reconnu: ".data ++ item.type ++ "]".data) noOpts).content =
      "[Type non reconnu: ".data ++ item.type ++ "]".data := by
    have hlen2 : ¬ 2000 <
        ("[Type non reconnu: ".data ++ item.type ++ "]".data).length := by
      simp only [List.length_append]
      norm_num
      omega
    simp only [richText, hjt]
    rw [if_neg hlen2, if_neg (by simp)]
  constructor
  · have horelse : orElseStr item.text
        ("[Type non reconnu: ".data ++ item.type ++ "]".data) =
        "[Type non reconnu: ".data ++ item.type ++ "]".data := by
      rcases htext with h | h <;> simp [orElseStr, h]
    have hmemchars : ∀ x ∈ ("[Type non reconnu: ".data ++ item.type ++ "]".data),
        x ≠ '*' ∧ x ≠ '`' ∧ x ≠ '~' ∧ x ≠ '(' := by
      intro x hx
      rcases List.mem_append.mp hx with hx1 | hx2
      · rcases List.mem_append.mp hx1 with hxa | hxt
        · refine ⟨?_, ?_, ?_, ?_⟩ <;> (intro h'; subst h'; revert hxa; decide)
        · exact hchars x hxt
      · refine ⟨?_, ?_, ?_, ?_⟩ <;> (intro h'; subst h'; revert hx2; decide)
    have hplain : parseFormattedText ("[Type non reconnu: ".data ++ item.type ++ "]".data) =
        [richText ("[Type non reconnu: ".data ++ item.type ++ "]".data) noOpts] :=
      parseFormattedText_plain _ hmemchars
    have hpar : paragraph
        (.str ("[Type non reconnu: ".data ++ item.type ++ "]".data)) bnone =
        some (.paragraphB
          (parseFormattedText ("[Type non reconnu: ".data ++ item.type ++ "]".data))
          "default".data none) :=
      marker_paragraph "Type non reconnu: ".data item.type
    simp only [buildCourseBlock, h1, h2, h3, h4, h5, h6, h7, h8, h9, h10, h11, h12, h13, h14, h15, h16, h17, h18, h19, h20, h21, h22, h23, h24, h25, h26, h27, h28, h29, h30, h31, h32, h33, h34, h35, h36, h37, h38, h39, h40, h41, h42, h43, h44, h45, h46, h47]
    simp only [horelse, hpar, hplain]
    rfl
  · rw [hcont]
    rw [show "[Type non reconnu: ".data ++ item.type ++ "]".data =
      "[Type non reconnu: ".data ++ (item.type ++ "]".data) from List.append_assoc _ _ _]
    exact containsSub_append_mid item.type "[Type non reconnu: ".data "]".data

/-- C4, witness at an unknown type tag with no text field. -/
theorem c4_witness :
    buildCourseBlock 1 { emptyItem with type := "foobar2".data } =
      .oneR (.paragraphB
        [richText ("[Type non reconnu: ".data ++ "foobar2".data ++ "]".data) noOpts]
        "default".data none) ∧
    containsSub "foobar2".data
      (richText ("[Type non reconnu: ".data ++ "foobar2".data ++ "]".data) noOpts).content =
      true :=
  c4_unknown_type 0 { emptyItem with type := "foobar2".data }
    (by decide) (Or.inl rfl) (by decide) (by decide)

/-! Claims C9 and C10. -/

theorem chunkArrayGo_flatten {α : Type} (size : Nat) (hsize : 0 < size) :
    ∀ (fuel : Nat) (l : List α), l.length ≤ fuel →
      (chunkArrayGo fuel l size).flatten = l := by
  intro fuel
  induction fuel with
  | zero =>
    intro l hl
    rw [Nat.le_zero, List.length_eq_zero] at hl
    subst hl
    rfl
  | succ n ih =>
    intro l hl
    match l with
    | [] => rfl
    | x :: xs =>
      have hrec : ((x :: xs).drop size).length ≤ n := by
        rw [List.length_drop]
        simp only [List.length_cons] at hl ⊢
        omega
      simp only [chunkArrayGo, List.flatten_cons, ih _ hrec, List.take_append_drop]

theorem chunkArrayGo_bound {α : Type} (size : Nat) :
    ∀ (fuel : Nat) (l : List α) (c : List α),
      c ∈ chunkArrayGo fuel l size → c.length ≤ size := by
  intro fuel
  induction fuel with
  | zero => intro l c hc; cases hc
  | succ n ih =>
    intro l c hc
    match l with
    | [] => cases hc
    | x :: xs =>
      simp only [chunkArrayGo, List.mem_cons] at hc
      rcases hc with rfl | hc
      · exact List.length_take_le size (x :: xs)
      · exact ih _ _ hc

/-- C9.  The materializer partitions every block list into consecutive
chunks of at most 100, issues one remote append call per chunk in
order on the same page, the concatenation of the issued chunks equals
the original list, and the empty list yields zero calls. -/
theorem c9_appendBlocks (pageId : Str) (blocks : List Block) :
    ((appendBlocksCalls pageId blocks).map Prod.snd).flatten = blocks ∧
    (∀ call ∈ appendBlocksCalls pageId blocks,
      call.2.length ≤ 100 ∧ call.1 = pageId) ∧
    appendBlocksCalls pageId ([] : List Block) = [] := by
  refine ⟨?_, ?_, rfl⟩
  · have : (appendBlocksCalls pageId blocks).map Prod.snd = chunkArray blocks 100 := by
      simp [appendBlocksCalls]
    rw [this]
    exact chunkArrayGo_flatten 100 (by omega) blocks.length blocks le_rfl
  · intro call hcall
    simp only [appendBlocksCalls, List.mem_map] at hcall
    obtain ⟨chunk, hchunk, rfl⟩ := hcall
    exact ⟨chunkArrayGo_bound 100 blocks.length blocks chunk hchunk, rfl⟩

/-- C9, witness at a one-block list. -/
theorem c9_witness :
    ((appendBlocksCalls "p".data [Block.dividerB]).map Prod.snd).flatten =
      [Block.dividerB] ∧
    (("p".data, [Block.dividerB]) ∈ appendBlocksCalls "p".data [Block.dividerB] →
      ([Block.dividerB] : List Block).length ≤ 100) ∧
    appendBlocksCalls "p".data ([] : List Block) = [] :=
  ⟨(c9_appendBlocks "p".data [Block.dividerB]).1,
   fun h => ((c9_appendBlocks "p".data [Block.dividerB]).2.1 _ h).1,
   (c9_appendBlocks "p".data [Block.dividerB]).2.2⟩

/-- C10.  The create-course endpoint treats a parent id of exactly 32
characters without a dash as a database parent, submitting the title
under the Name property; every other parent id is a page parent with
the title under the title property. -/
theorem c10_parent_heuristic (parentId title : Str) :
    ((parentId.length = 32 ∧ parentId.contains '-' = false) →
      chooseParent parentId = .databaseId parentId ∧
      courseProperties (chooseParent parentId) title = [("Name".data, ⟨title⟩)]) ∧
    ((parentId.length ≠ 32 ∨ parentId.contains '-' = true) →
      chooseParent parentId = .pageId parentId ∧
      courseProperties (chooseParent parentId) title = [("title".data, ⟨title⟩)]) := by
  constructor
  · rintro ⟨h1, h2⟩
    have hcond : (parentId.length == 32 && !(parentId.contains '-')) = true := by
      rw [h1, h2]
      rfl
    have hp : chooseParent parentId = .databaseId parentId := by
      simp only [chooseParent, hcond, if_true]
    exact ⟨hp, by rw [hp]; rfl⟩
  · intro h
    have hcond : (parentId.length == 32 && !(parentId.contains '-')) = false := by
      rcases h with h | h
      · have hb : (parentId.length == 32) = false := by
          simpa using h
        rw [hb]
        rfl
      · rw [h]
        simp
    have hp : chooseParent parentId = .pageId parentId := by
      simp only [chooseParent, hcond, Bool.false_eq_true, if_false]
    exact ⟨hp, by rw [hp]; rfl⟩

/-- C10, witness at a 32-character dashless id and at a dashed id. -/
theorem c10_witness :
    (chooseParent "abcdefabcdefabcdefabcdefabcdefab".data =
        .databaseId "abcdefabcdefabcdefabcdefabcdefab".data ∧
      courseProperties (chooseParent "abcdefabcdefabcdefabcdefabcdefab".data) "T".data =
        [("Name".data, ⟨"T".data⟩)]) ∧
    (chooseParent "abc-def".data = .pageId "abc-def".data ∧
      courseProperties (chooseParent "abc-def".data) "T".data =
        [("title".data, ⟨"T".data⟩)]) :=
  ⟨(c10_parent_heuristic "abcdefabcdefabcdefabcdefabcdefab".data "T".data).1
      (by decide),
   (c10_parent_heuristic "abc-def".data "T".data).2 (Or.inr (by decide))⟩

/-! Claim C8. -/

/-- Whether an Except value is a success. -/
def isOkE {ε α : Type} (e : Except ε α) : Bool :=
  match e with
  | .ok _ => true
  | .error _ => false

/-- Shape under which the validator's per-section loop cannot raise: the
section is not nullish and its content field is nullish or an array of
non-nullish items. -/
def GoodSectionShape (s : JsVal) : Prop :=
  nullish s = false ∧
  (nullish (fieldOf s "content".data) = true ∨
   ∃ xs, fieldOf s "content".data = .arrV xs ∧ ∀ x ∈ xs, nullish x = false)

/-- Shape under which `validateCourse` cannot raise: the course is not
nullish, its title is a string whenever truthy, and its sections field
is nullish or an array of well-shaped sections. -/
def GoodCourseShape (course : JsVal) : Prop :=
  nullish course = false ∧
  (truthyV (fieldOf course "title".data) = true →
    ∃ t, fieldOf course "title".data = JsVal.strV t) ∧
  (nullish (fieldOf course "sections".data) = true ∨
   ∃ ss, fieldOf course "sections".data = .arrV ss ∧ ∀ s ∈ ss, GoodSectionShape s)

theorem getField_ok (v : JsVal) (k : Str) (h : nullish v = false) :
    getField v k = .ok (fieldOf v k) := by
  simp [getField, h]

theorem exc_bind_ok {α β : Type} (a : α) (f : α → Except Str β) :
    (Except.ok a : Except Str α) >>= f = f a := rfl

theorem exc_bind_pure {α β : Type} (a : α) (f : α → Except Str β) :
    (pure a : Except Str α) >>= f = f a := rfl

theorem checkQuiz_ok (idx : Nat) (item ty : JsVal) (errors : List Str)
    (h : nullish item = false) : ∃ r, checkQuiz idx item ty errors = .ok r := by
  simp only [checkQuiz, getField_ok _ _ h, exc_bind_ok]
  split
  · split
    · exact ⟨_, rfl⟩
    · exact ⟨_, rfl⟩
  · exact ⟨_, rfl⟩

theorem checkUrl_ok (idx : Nat) (item ty : JsVal) (errors : List Str)
    (h : nullish item = false) : ∃ r, checkUrl idx item ty errors = .ok r := by
  simp only [checkUrl, getField_ok _ _ h, exc_bind_ok]
  split
  · split
    · exact ⟨_, rfl⟩
    · exact ⟨_, rfl⟩
  · exact ⟨_, rfl⟩

theorem checkText_ok (idx : Nat) (item : JsVal) (warnings : List Str)
    (h : nullish item = false) : ∃ r, checkText idx item warnings = .ok r := by
  simp only [checkText, getField_ok _ _ h, exc_bind_ok]
  split
  · exact ⟨_, rfl⟩
  · exact ⟨_, rfl⟩

theorem validateItemStep_ok (idx : Nat) (acc : List Str × List Str × Nat)
    (item : JsVal) (h : nullish item = false) :
    ∃ r, validateItemStep idx acc item = .ok r := by
  obtain ⟨e, w, n⟩ := acc
  simp only [validateItemStep, getField_ok _ _ h, exc_bind_ok]
  obtain ⟨r1, h1⟩ := checkQuiz_ok idx item (fieldOf item "type".data) e h
  rw [h1, exc_bind_ok]
  obtain ⟨r2, h2⟩ := checkUrl_ok idx item (fieldOf item "type".data) r1 h
  rw [h2, exc_bind_ok]
  obtain ⟨r3, h3⟩ := checkText_ok idx item _ h
  rw [h3, exc_bind_ok]
  exact ⟨_, rfl⟩

theorem foldlM_items_ok (idx : Nat) :
    ∀ (items : List JsVal) (acc : List Str × List Str × Nat),
      (∀ x ∈ items, nullish x = false) →
      ∃ r, items.foldlM (validateItemStep idx) acc = .ok r := by
  intro items
  induction items with
  | nil => intro acc _; exact ⟨acc, rfl⟩
  | cons x xs ih =>
    intro acc h
    obtain ⟨r1, h1⟩ := validateItemStep_ok idx acc x (h x (List.mem_cons_self _ _))
    rw [List.foldlM_cons, h1, exc_bind_ok]
    exact ih r1 (fun y hy => h y (List.mem_cons_of_mem _ hy))

theorem validateSectionStep_ok (acc : List Str × List Str × Nat) (s : JsVal)
    (hs : GoodSectionShape s) : ∃ r, validateSectionStep acc s = .ok r := by
  obtain ⟨e, w, idx⟩ := acc
  obtain ⟨hnn, hcontent⟩ := hs
  simp only [validateSectionStep, getField_ok _ _ hnn, exc_bind_ok]
  rcases hcontent with hnull | ⟨xs, hxs, hgood⟩
  · rw [if_pos hnull]
    exact ⟨_, rfl⟩
  · have hzf : nullish (fieldOf s "content".data) = false := by rw [hxs]; rfl
    rw [if_neg (by simp [hzf])]
    rw [hxs]
    simp only [asArrayForEach, exc_bind_ok]
    obtain ⟨r, hr⟩ := foldlM_items_ok idx xs _ hgood
    rw [hr, exc_bind_ok]
    exact ⟨_, rfl⟩

theorem foldlM_sections_ok :
    ∀ (ss : List JsVal) (acc : List Str × List Str × Nat),
      (∀ s ∈ ss, GoodSectionShape s) →
      ∃ r, ss.foldlM validateSectionStep acc = .ok r := by
  intro ss
  induction ss with
  | nil => intro acc _; exact ⟨acc, rfl⟩
  | cons x xs ih =>
    intro acc h
    obtain ⟨r1, h1⟩ := validateSectionStep_ok acc x (h x (List.mem_cons_self _ _))
    rw [List.foldlM_cons, h1, exc_bind_ok]
    exact ih r1 (fun y hy => h y (List.mem_cons_of_mem _ hy))

/-- C8, amended.  The validator returns a result without raising for every
non-nullish course whose truthy title is a string and whose sections
field, when not nullish, is an array of non-nullish sections with
nullish-or-array content of non-nullish items; the recommendation
generator returns without raising whenever its argument and the
argument's blockTypes field are not nullish.  Absent fields read as
falsy or zero through the property-read model. -/
theorem c8_totality (course stats : JsVal) :
    (GoodCourseShape course → ∃ r, validateCourse course = .ok r) ∧
    (nullish stats = false → nullish (fieldOf stats "blockTypes".data) = false →
      ∃ recs, generateRecommendations stats = .ok recs) := by
  constructor
  · rintro ⟨hnn, htitle, hsections⟩
    simp only [validateCourse, getField_ok _ _ hnn, exc_bind_ok]
    by_cases ht : truthyV (fieldOf course "title".data) = true
    · rw [if_neg (by simp [ht])]
      obtain ⟨t, hts⟩ := htitle ht
      rw [hts]
      simp only [trimCall, exc_bind_ok, exc_bind_pure]
      rcases hsections with hnull | ⟨ss, hss, hgood⟩
      · rw [if_pos hnull]
        exact ⟨_, rfl⟩
      · have hzf : nullish (fieldOf course "sections".data) = false := by rw [hss]; rfl
        rw [if_neg (by simp [hzf])]
        rw [hss]
        simp only [asArrayForEach, exc_bind_ok]
        obtain ⟨r, hr⟩ := foldlM_sections_ok ss _ hgood
        rw [hr, exc_bind_ok]
        exact ⟨_, rfl⟩
    · have ht' : truthyV (fieldOf course "title".data) = false := by
        simpa using ht
      rw [if_pos (by simp [ht'])]
      simp only [exc_bind_pure]
      rcases hsections with hnull | ⟨ss, hss, hgood⟩
      · rw [if_pos hnull]
        exact ⟨_, rfl⟩
      · have hzf : nullish (fieldOf course "sections".data) = false := by rw [hss]; rfl
        rw [if_neg (by simp [hzf])]
        rw [hss]
        simp only [asArrayForEach, exc_bind_ok]
        obtain ⟨r, hr⟩ := foldlM_sections_ok ss _ hgood
        rw [hr, exc_bind_ok]
        exact ⟨_, rfl⟩
  · intro hstats hbt
    simp only [generateRecommendations, getField_ok _ _ hstats, exc_bind_ok,
      getField_ok _ _ hbt]
    exact ⟨_, rfl⟩

/-- C8, counterexample.  Both functions raise a TypeError on null input,
the validator raises on a null item inside sections, and the generator
raises when the blockTypes field is absent: they are not total on all
malformed values. -/
theorem c8_counterexample :
    isOkE (validateCourse JsVal.nullV) = false ∧
    isOkE (generateRecommendations JsVal.nullV) = false ∧
    isOkE (validateCourse (JsVal.objV
      [("title".data, JsVal.strV "T".data),
       ("sections".data, JsVal.arrV [JsVal.nullV])])) = false ∧
    isOkE (generateRecommendations (JsVal.objV
      [("totalBlocks".data, JsVal.numV 1),
       ("totalSections".data, JsVal.numV 1)])) = false :=
  ⟨rfl, rfl, rfl, rfl⟩

/-- C8, witness at the empty-object course and a stats object holding an
empty blockTypes object. -/
theorem c8_witness :
    (∃ r, validateCourse (JsVal.objV []) = .ok r) ∧
    (∃ recs, generateRecommendations
      (JsVal.objV [("blockTypes".data, JsVal.objV [])]) = .ok recs) :=
  ⟨(c8_totality (JsVal.objV []) JsVal.nullV).1
    ⟨rfl, fun h => absurd h (by decide), Or.inl rfl⟩,
   (c8_totality JsVal.nullV (JsVal.objV [("blockTypes".data, JsVal.objV [])])).2
    rfl (by decide)⟩

/-! Witnesses for claims C5 to C7. -/

/-- C5, witness at the one-option quiz and the out-of-range index 5 of the
claim's examples. -/
theorem c5_witness :
    quickQuiz "Q".data ["x".data] 0 =
      some (.paragraphB [richText "Quiz invalide : options manquantes".data noOpts]
        "default".data none) ∧
    quickQuiz "Q".data ["a".data, "b".data, "c".data] 5 =
      quickQuiz "Q".data ["a".data, "b".data, "c".data] 0 ∧
    ∃ bullets,
      quickQuiz "Q".data ["a".data, "b".data, "c".data] 5 =
        some (callout
          (.rich [richText "Quiz: ".data boldOpt,
                  richText (jsTrim (stripWordColonPhrase "Quiz".data
                    (cleanLeadingEmoji "Q".data))) noOpts])
          { bnone with icon := some "🧠".data, color := some "purple_background".data,
                       children := some (bullets ++
                         [toggle (.str "Voir la réponse".data)
                           [callout (.str ("La bonne réponse est A) ".data ++
                               jsTrim ((["a".data, "b".data, "c".data] : List Str).headD [])))
                             { bnone with icon := some "✅".data,
                                          color := some "green_background".data }]
                           bnone]) }) :=
  ⟨(c5_quickQuiz "Q".data ["x".data] 0).1 (by decide),
   (c5_quickQuiz "Q".data ["a".data, "b".data, "c".data] 5).2 (by decide)
     (Or.inr (by decide))⟩

/-- C6, witness at the invalid URL of the claim's example. -/
theorem c6_witness :
    image "ftp://x".data none =
      some (.paragraphB
        (parseFormattedText ("[Image invalide: ".data ++ "ftp://x".data ++ "]".data))
        "default".data none) ∧
    containsSub "ftp://x".data
      ("[Image invalide: ".data ++ "ftp://x".data ++ "]".data) = true :=
  ⟨(c6_url_degradation "ftp://x".data none (by decide)).1,
   (c6_url_degradation "ftp://x".data none (by decide)).2.1⟩

/-- C7, witness at the stripped title with one instruction and a solution. -/
theorem c7_witness :
    exercice ("Exercice: ".data ++ "Add".data) ["x".data] (some "sol".data) =
      callout (.rich [richText "Exercice: ".data boldOpt, richText "Add".data noOpts])
        { bnone with icon := some "✏️".data, color := some "orange_background".data,
                     children := some (
                       (((["x".data] : List Str).map jsTrim).filter
                           (fun i => 0 < i.length)).map
                         (fun i => bulletedListItem (.str i) bnone) ++
                       [toggle (.str "💡 Voir la solution".data)
                         [code (jsTrim "sol".data) "plain text".data none]
                         { bnone with color := some "green_background".data }]) } :=
  c7_exercice "Add".data ["x".data] "sol".data (by decide) (by decide)
    (by decide) (by decide)

end NotionCourse
